import Mathlib

/-!
Shallow embedding of the capital-ledger, guardrail, allocator and kill-switch
core of the AI-Trading backend (src/backend/app/services/treasury.py,
risk_checks.py, allocator.py, risk_monitor.py), with theorems settling the
frozen claims about it.  Monetary quantities and metrics are modelled as
rationals; Python `int()` truncation, `or`-based falsy defaulting and
`Optional` fields are modelled explicitly.
-/

namespace AITrading

/-- Truncation toward zero, the behaviour of Python `int()` on a float/ratio. -/
def pyInt (q : ℚ) : ℤ := if 0 ≤ q then ⌊q⌋ else ⌈q⌉

/-- Python `str.lower()`, modelled by mapping `Char.toLower` over the
character list (the definition of `String.toLower`, phrased over `data` so
that it evaluates by kernel reduction). -/
def pyLower (s : String) : String := ⟨s.data.map Char.toLower⟩

/-- Python `str.strip()`: drop leading and trailing whitespace, modelled over
the character list so that it evaluates by kernel reduction. -/
def pyStrip (s : String) : String :=
  ⟨((s.data.dropWhile Char.isWhitespace).reverse.dropWhile
      Char.isWhitespace).reverse⟩

/-- Python `x or d` for an optional numeric `x`: `None` and `0` are falsy and
yield the default `d`. -/
def orQ (x : Option ℚ) (d : ℚ) : ℚ :=
  match x with
  | none => d
  | some v => if v = 0 then d else v

/-! ### Capital ledger state (`FundingPlan` rows mutated by `Treasury`) -/

/-- Mutable balances of one account's `FundingPlan` row
(`available_cash`, `reserved_cash`, `total_deployed`). -/
structure FundingPlanState where
  available_cash : ℚ
  reserved_cash : ℚ
  total_deployed : ℚ
deriving Repr, DecidableEq

/-- Static funding configuration consulted by SIP / tranche processing.
`has_tranche_plan` models Python truthiness of the optional `tranche_plan`
list (`False` for `None` or an empty list). -/
structure FundingPlanConfig where
  funding_type : String
  sip_amount : Option ℚ
  lump_sum_amount : Option ℚ
  has_tranche_plan : Bool
deriving Repr, DecidableEq

/-- `Treasury.reserve_cash` (treasury.py:157-183): if `available_cash >= amount`
move the amount from available to reserved and return `True`, else return
`False` leaving the state unchanged. -/
def Treasury.reserve_cash (s : FundingPlanState) (amount : ℚ) :
    Bool × FundingPlanState :=
  if s.available_cash ≥ amount then
    (true,
      { s with
        available_cash := s.available_cash - amount
        reserved_cash := s.reserved_cash + amount })
  else
    (false, s)

/-- `Treasury.release_reservation` (treasury.py:185-200): unconditionally moves
the amount from reserved back to available (order cancelled/rejected). -/
def Treasury.release_reservation (s : FundingPlanState) (amount : ℚ) :
    FundingPlanState :=
  { s with
    reserved_cash := s.reserved_cash - amount
    available_cash := s.available_cash + amount }

/-- `Treasury.deploy_cash` (treasury.py:202-217): unconditionally moves the
amount from reserved to deployed (order filled). -/
def Treasury.deploy_cash (s : FundingPlanState) (amount : ℚ) :
    FundingPlanState :=
  { s with
    reserved_cash := s.reserved_cash - amount
    total_deployed := s.total_deployed + amount }

/-- `Treasury.return_cash` (treasury.py:219-234): unconditionally moves the
amount from deployed back to available (position closed).  The function takes
only `amount`; no realized-P&L argument exists. -/
def Treasury.return_cash (s : FundingPlanState) (amount : ℚ) :
    FundingPlanState :=
  { s with
    total_deployed := s.total_deployed - amount
    available_cash := s.available_cash + amount }

/-- `Treasury.process_sip_installment` (treasury.py:26-71): for a SIP account
with a positive configured `sip_amount`, add the installment to available cash
and log a DEPOSIT transaction.  Returns the new state and the deposit amount
applied (0 when nothing was processed). -/
def Treasury.process_sip_installment (cfg : FundingPlanConfig)
    (s : FundingPlanState) : FundingPlanState × ℚ :=
  if cfg.funding_type ≠ "SIP" then (s, 0)
  else
    match cfg.sip_amount with
    | none => (s, 0)
    | some a =>
      if 0 < a then
        ({ s with available_cash := s.available_cash + a }, a)
      else (s, 0)

/-- `Treasury.release_next_tranche` (treasury.py:73-129): for a
LUMP_SUM/HYBRID account with a tranche plan, release a 33% tranche when
utilization exceeds 80% and available cash is below 10% of the lump sum,
provided the release keeps available cash within the lump sum.  Returns the
new state and the deposit amount applied. -/
def Treasury.release_next_tranche (cfg : FundingPlanConfig)
    (s : FundingPlanState) : FundingPlanState × ℚ :=
  if cfg.funding_type ≠ "LUMP_SUM" ∧ cfg.funding_type ≠ "HYBRID" then (s, 0)
  else if ¬ cfg.has_tranche_plan then (s, 0)
  else
    let total_lump_sum := cfg.lump_sum_amount.getD 0
    let utilization :=
      if 0 < total_lump_sum then s.total_deployed / total_lump_sum else 0
    if utilization > 8/10 ∧ s.available_cash < total_lump_sum * (1/10) then
      let tranche_amount := total_lump_sum * (33/100)
      if s.available_cash + tranche_amount ≤ total_lump_sum then
        ({ s with available_cash := s.available_cash + tranche_amount },
          tranche_amount)
      else (s, 0)
    else (s, 0)

/-- One ledger operation of the treasury, as invoked by callers. -/
inductive TreasuryOp where
  | reserve (amount : ℚ)
  | release (amount : ℚ)
  | deploy (amount : ℚ)
  | returnCash (amount : ℚ)
  | sipInstallment
  | trancheRelease
deriving Repr, DecidableEq

/-- Apply one treasury operation; the second component is the deposit amount
this operation applied to the ledger (non-zero only for SIP installments and
tranche releases, the only operations that change the total). -/
def treasuryStep (cfg : FundingPlanConfig) (s : FundingPlanState) :
    TreasuryOp → FundingPlanState × ℚ
  | .reserve a => ((Treasury.reserve_cash s a).2, 0)
  | .release a => (Treasury.release_reservation s a, 0)
  | .deploy a => (Treasury.deploy_cash s a, 0)
  | .returnCash a => (Treasury.return_cash s a, 0)
  | .sipInstallment => Treasury.process_sip_installment cfg s
  | .trancheRelease => Treasury.release_next_tranche cfg s

/-- Run a sequence of treasury operations; returns the final state and the
sum of deposit amounts applied along the way. -/
def treasuryRun (cfg : FundingPlanConfig) (s : FundingPlanState) :
    List TreasuryOp → FundingPlanState × ℚ
  | [] => (s, 0)
  | op :: ops =>
    let r := treasuryStep cfg s op
    let rs := treasuryRun cfg r.1 ops
    (rs.1, r.2 + rs.2)

/-- The conserved ledger total `available + reserved + deployed`. -/
def ledgerTotal (s : FundingPlanState) : ℚ :=
  s.available_cash + s.reserved_cash + s.total_deployed

theorem treasuryStep_total (cfg : FundingPlanConfig) (s : FundingPlanState)
    (op : TreasuryOp) :
    ledgerTotal (treasuryStep cfg s op).1 =
      ledgerTotal s + (treasuryStep cfg s op).2 := by
  cases op with
  | reserve a =>
    simp only [treasuryStep, Treasury.reserve_cash]
    split <;> simp [ledgerTotal]
  | release a =>
    simp only [treasuryStep, Treasury.release_reservation, ledgerTotal]
    ring
  | deploy a =>
    simp only [treasuryStep, Treasury.deploy_cash, ledgerTotal]
    ring
  | returnCash a =>
    simp only [treasuryStep, Treasury.return_cash, ledgerTotal]
    ring
  | sipInstallment =>
    simp only [treasuryStep, Treasury.process_sip_installment]
    split
    · simp
    · cases cfg.sip_amount with
      | none => simp
      | some a =>
        by_cases h : 0 < a <;> simp [h, ledgerTotal] <;> ring
  | trancheRelease =>
    simp only [treasuryStep, Treasury.release_next_tranche]
    split_ifs <;> simp [ledgerTotal] <;> ring

theorem treasuryRun_total (cfg : FundingPlanConfig) (s : FundingPlanState)
    (ops : List TreasuryOp) :
    ledgerTotal (treasuryRun cfg s ops).1 =
      ledgerTotal s + (treasuryRun cfg s ops).2 := by
  induction ops generalizing s with
  | nil => simp [treasuryRun]
  | cons op ops ih =>
    simp only [treasuryRun]
    rw [ih (treasuryStep cfg s op).1, treasuryStep_total]
    ring

/-- C1: Capital conservation.  For every funding configuration, initial ledger
and finite sequence of `reserve_cash` / `release_reservation` / `deploy_cash`
/ `return_cash` / SIP-installment / tranche-release operations, the total
`available_cash + reserved_cash + total_deployed` after the sequence equals
its initial value plus the sum of deposit amounts applied (SIP installments
and tranche releases), within 1e-6.  No operation of the treasury applies
realized P&L to the ledger (`return_cash` takes no P&L argument), so the
realized-P&L term of the claim is identically zero. -/
theorem capital_conservation (cfg : FundingPlanConfig) (s : FundingPlanState)
    (ops : List TreasuryOp) :
    |ledgerTotal (treasuryRun cfg s ops).1 -
      (ledgerTotal s + (treasuryRun cfg s ops).2)| ≤ 1/1000000 := by
  rw [treasuryRun_total]
  simp

/-- C2: Reservation semantics of `Treasury.reserve_cash`: it returns `true`
exactly when `available_cash ≥ amount` at call time; on success
`available_cash` decreases by the amount and `reserved_cash` increases by it
(`total_deployed` untouched); on failure it returns `false` with the state
unchanged. -/
theorem reserve_cash_semantics (s : FundingPlanState) (amount : ℚ) :
    ((Treasury.reserve_cash s amount).1 = true ↔ s.available_cash ≥ amount) ∧
    ((Treasury.reserve_cash s amount).1 = true →
      (Treasury.reserve_cash s amount).2.available_cash =
          s.available_cash - amount ∧
      (Treasury.reserve_cash s amount).2.reserved_cash =
          s.reserved_cash + amount ∧
      (Treasury.reserve_cash s amount).2.total_deployed = s.total_deployed) ∧
    ((Treasury.reserve_cash s amount).1 = false →
      (Treasury.reserve_cash s amount).2 = s) := by
  unfold Treasury.reserve_cash
  by_cases h : s.available_cash ≥ amount <;> simp [h]

/-- Witness for C2 at a concrete ledger: reserving 5 out of 10 succeeds and
moves the balances; reserving 5 out of 3 fails and leaves the state intact. -/
theorem reserve_cash_semantics_witness :
    (Treasury.reserve_cash ⟨10, 1, 2⟩ 5).2.available_cash = 10 - 5 ∧
    (Treasury.reserve_cash ⟨3, 1, 2⟩ 5).2 = ⟨3, 1, 2⟩ :=
  ⟨((reserve_cash_semantics ⟨10, 1, 2⟩ 5).2.1 (by decide)).1,
    (reserve_cash_semantics ⟨3, 1, 2⟩ 5).2.2 (by decide)⟩

/-- C3 counterexample: `release_reservation` is not rejected when it would
drive `reserved_cash` below zero — on the ledger (0, 0, 0) releasing 1 yields
`reserved_cash = -1` and a changed state, refuting the claim that every such
operation is rejected with the state unchanged. -/
theorem release_reservation_drives_reserved_negative :
    (Treasury.release_reservation ⟨0, 0, 0⟩ 1).reserved_cash < 0 ∧
    Treasury.release_reservation ⟨0, 0, 0⟩ 1 ≠ ⟨0, 0, 0⟩ := by
  constructor
  · simp [Treasury.release_reservation]
  · intro h
    have := congrArg FundingPlanState.reserved_cash h
    simp [Treasury.release_reservation] at this

/-- C3 amended: only `reserve_cash` guards the balances — starting from
non-negative balances, a `reserve_cash` call with a non-negative amount keeps
both `available_cash` and `reserved_cash` non-negative (an insufficient
reservation is rejected with the state unchanged), while
`release_reservation`, `deploy_cash` and `return_cash` apply their updates
unconditionally, with no rejection of operations that drive a balance
negative. -/
theorem ledger_nonneg_only_reserve_guarded (s : FundingPlanState) (a : ℚ)
    (h0 : 0 ≤ s.available_cash) (h1 : 0 ≤ s.reserved_cash) (ha : 0 ≤ a) :
    (0 ≤ (Treasury.reserve_cash s a).2.available_cash ∧
      0 ≤ (Treasury.reserve_cash s a).2.reserved_cash) ∧
    Treasury.release_reservation s a =
      ⟨s.available_cash + a, s.reserved_cash - a, s.total_deployed⟩ ∧
    Treasury.deploy_cash s a =
      ⟨s.available_cash, s.reserved_cash - a, s.total_deployed + a⟩ ∧
    Treasury.return_cash s a =
      ⟨s.available_cash + a, s.reserved_cash, s.total_deployed - a⟩ := by
  refine ⟨?_, rfl, rfl, rfl⟩
  unfold Treasury.reserve_cash
  split
  · constructor
    · show 0 ≤ s.available_cash - a
      rename_i h
      linarith
    · show 0 ≤ s.reserved_cash + a
      linarith
  · exact ⟨h0, h1⟩

/-- Witness for the amended C3 at a concrete ledger and amount. -/
theorem ledger_nonneg_only_reserve_guarded_witness :
    (0 ≤ (Treasury.reserve_cash ⟨10, 2, 3⟩ 4).2.available_cash ∧
      0 ≤ (Treasury.reserve_cash ⟨10, 2, 3⟩ 4).2.reserved_cash) ∧
    Treasury.release_reservation ⟨10, 2, 3⟩ 4 = ⟨10 + 4, 2 - 4, 3⟩ ∧
    Treasury.deploy_cash ⟨10, 2, 3⟩ 4 = ⟨10, 2 - 4, 3 + 4⟩ ∧
    Treasury.return_cash ⟨10, 2, 3⟩ 4 = ⟨10 + 4, 2, 3 - 4⟩ :=
  ledger_nonneg_only_reserve_guarded ⟨10, 2, 3⟩ 4 (by decide) (by decide)
    (by decide)

/-- C4 counterexample: the code's return-capital operation ignores realized
P&L.  Closing a position of deployed amount 100 with realized P&L −50 on the
ledger (0, 0, 100) leaves `available_cash = 100`, not the
`0 + (100 + (−50)) = 50` the claim predicts. -/
theorem return_cash_ignores_pnl :
    (Treasury.return_cash ⟨0, 0, 100⟩ 100).available_cash ≠
      0 + (100 + (-50 : ℚ)) := by
  simp [Treasury.return_cash]

/-- C4 amended: `Treasury.return_cash` takes only the deployed amount — it
decreases `total_deployed` by the amount and increases `available_cash` by
exactly the amount; no realized-P&L argument exists and none is applied to
the ledger. -/
theorem return_cash_spec (s : FundingPlanState) (amount : ℚ) :
    Treasury.return_cash s amount =
      ⟨s.available_cash + amount, s.reserved_cash,
        s.total_deployed - amount⟩ := rfl

/-! ### Guardrails (`RiskChecker`, risk_checks.py) -/

/-- Warning severity (`GuardrailSeverity` in risk_evaluation.py). -/
inductive GuardrailSeverity where
  | CRITICAL
  | WARNING
  | INFO
deriving Repr, DecidableEq

/-- A risk warning emitted by a guardrail check.  The human-readable
`message`/`details` payload is presentation data and is elided; `type`
(severity) and `code` carry the semantics used by aggregation. -/
structure RiskWarning where
  type : GuardrailSeverity
  code : String
deriving Repr, DecidableEq

/-- The fields of an account's active `Mandate` consulted by the embedded
functions. -/
structure Mandate where
  objective : String
  risk_per_trade_percent : ℚ
  max_sector_exposure_percent : Option ℚ
  horizon_min_days : ℤ
  horizon_max_days : ℤ
  banned_sectors : Option (List String)
  sl_multiplier : ℚ
  tp_multiplier : ℚ
deriving Repr, DecidableEq

/-- The two nullable `FundingPlan` columns read by the guardrails
(`available_cash or 0.0`, `total_deployed or 0.0`). -/
structure FundingView where
  available_cash : Option ℚ
  total_deployed : Option ℚ
deriving Repr, DecidableEq

/-- An open `PositionV2` row as read by the sector-exposure check. -/
structure PositionView where
  symbol : Option String
  quantity : ℚ
  current_price : Option ℚ
  average_entry_price : Option ℚ
deriving Repr, DecidableEq

/-- `RiskChecker.check_liquidity` (risk_checks.py:119-167): with no average
volume over the 20-day lookback (`None`, or a Python-falsy 0), pass with a
WARNING; otherwise fail CRITICAL iff `quantity / avg_volume` exceeds the 5%
ADV ratio (`MAX_TRADE_TO_ADV_RATIO`). -/
def RiskChecker.check_liquidity (avg_volume : Option ℚ) (quantity : ℤ) :
    Bool × List RiskWarning :=
  match avg_volume with
  | none => (true, [⟨.WARNING, "INSUFFICIENT_VOLUME_DATA"⟩])
  | some v =>
    if v = 0 then (true, [⟨.WARNING, "INSUFFICIENT_VOLUME_DATA"⟩])
    else
      let ratio := (quantity : ℚ) / v
      if ratio > 5/100 then
        (false, [⟨.CRITICAL, "LIQUIDITY_BELOW_THRESHOLD"⟩])
      else (true, [])

/-- Total capital as computed inside the guardrails: ledger
`available + deployed`, falling back to the `total_capital` setting (default
100000) when the ledger total is not positive. -/
def guardrailTotalCapital (funding : Option FundingView)
    (setting_total_capital : Option ℚ) : ℚ :=
  let tc :=
    match funding with
    | some f => f.available_cash.getD 0 + f.total_deployed.getD 0
    | none => 0
  if tc ≤ 0 then setting_total_capital.getD 100000 else tc

/-- Value of one open position as summed by the sector-exposure check:
`price = current_price or average_entry_price or 0.0`, counted only when the
symbol and the price are truthy. -/
def positionValue (pos : PositionView) : ℚ :=
  let price := orQ pos.current_price (orQ pos.average_entry_price 0)
  let symbolTruthy : Bool :=
    match pos.symbol with
    | some sym => sym != ""
    | none => false
  if symbolTruthy && (price != 0) then price * pos.quantity else 0

/-- `RiskChecker.check_sector_exposure` (risk_checks.py:229-313): with a
missing/zero `account_id` or no active mandate, pass; with an untruthy or
blank sector, pass with INFO; otherwise compute
`exposure% = (open positions value + new position value) / total_capital` and
fail CRITICAL iff it exceeds `mandate.max_sector_exposure_percent`
(default 30).  Note the function contains no banned-sector logic. -/
def RiskChecker.check_sector_exposure (account_id : Option ℤ)
    (mandate : Option Mandate) (funding : Option FundingView)
    (setting_total_capital : Option ℚ) (open_positions : List PositionView)
    (sector : Option String) (new_position_value : ℚ) :
    Bool × List RiskWarning :=
  if account_id.getD 0 = 0 then (true, [])
  else
    match mandate with
    | none => (true, [])
    | some m =>
      let total_capital := guardrailTotalCapital funding setting_total_capital
      let sectorBlank : Bool :=
        match sector with
        | none => true
        | some sec => sec == "" || pyStrip sec == ""
      if sectorBlank then (true, [⟨.INFO, "SECTOR_UNKNOWN"⟩])
      else
        let current_sector_value := (open_positions.map positionValue).sum
        let total_sector_value := current_sector_value + new_position_value
        let exposure_percent :=
          if 0 < total_capital then total_sector_value / total_capital * 100
          else 100
        let limit := m.max_sector_exposure_percent.getD 30
        if exposure_percent > limit then
          (false, [⟨.CRITICAL, "SECTOR_EXPOSURE_EXCEEDED"⟩])
        else (true, [])

/-- Result of `Allocator.check_sector_exposure` (the `can_add`/`reason` keys
of the returned dict; the numeric exposure fields are constants in the
source). -/
structure SectorExposureVerdict where
  can_add : Bool
  reason : Option String
deriving Repr, DecidableEq

/-- `Allocator.check_sector_exposure` (allocator.py:300-335): with no active
mandate, refuse; if `sector.lower()` appears among the lower-cased
`mandate.banned_sectors`, refuse with a reason; otherwise allow (the numeric
exposure computation is left to the guardrail engine). -/
def Allocator.check_sector_exposure (mandate : Option Mandate)
    (sector : String) : SectorExposureVerdict :=
  match mandate with
  | none => ⟨false, some "No mandate"⟩
  | some m =>
    if pyLower sector ∈ (m.banned_sectors.getD []).map pyLower then
      ⟨false, some ("Sector " ++ sector ++ " is banned")⟩
    else
      ⟨true, none⟩

/-- C5 counterexample: with an active mandate banning the "pharma" sector,
the RiskChecker SectorExposure guardrail evaluated on sector "Pharma"
(case-insensitively banned) passes with no warning at all — it does not fail
and emits no CRITICAL warning, refuting the claim. -/
theorem banned_sector_passes_guardrail :
    (pyLower "Pharma" ∈
      ((Mandate.mk "BALANCED" 2 (some 30) 1 30 (some ["pharma"]) 1 2
        ).banned_sectors.getD []).map pyLower) ∧
    RiskChecker.check_sector_exposure (some 1)
      (some (Mandate.mk "BALANCED" 2 (some 30) 1 30 (some ["pharma"]) 1 2))
      (some ⟨some 100000, some 0⟩) none [] (some "Pharma") 1000 =
      (true, []) := by
  refine ⟨by decide, ?_⟩
  have hblank : ("Pharma" == "" || pyStrip "Pharma" == "") = false := by decide
  simp only [RiskChecker.check_sector_exposure, guardrailTotalCapital, hblank]
  norm_num

/-- C5 amended: banned-sector matching (case-insensitive) is implemented only
in `Allocator.check_sector_exposure`, which returns `can_add = false` for a
banned sector; the RiskChecker SectorExposure guardrail performs only the
numeric exposure-limit check and its verdict does not depend on
`mandate.banned_sectors` at all. -/
theorem banned_sector_blocked_only_in_allocator (m : Mandate) (sector : String)
    (account_id : Option ℤ) (funding : Option FundingView)
    (setting_total_capital : Option ℚ) (open_positions : List PositionView)
    (sec : Option String) (new_position_value : ℚ)
    (hb : pyLower sector ∈ (m.banned_sectors.getD []).map pyLower) :
    (Allocator.check_sector_exposure (some m) sector).can_add = false ∧
    RiskChecker.check_sector_exposure account_id (some m) funding
        setting_total_capital open_positions sec new_position_value =
      RiskChecker.check_sector_exposure account_id
        (some { m with banned_sectors := none }) funding
        setting_total_capital open_positions sec new_position_value := by
  constructor
  · simp [Allocator.check_sector_exposure, hb]
  · rfl

/-- Witness for the amended C5 at a concrete mandate and sector. -/
theorem banned_sector_blocked_only_in_allocator_witness :
    (Allocator.check_sector_exposure
      (some (Mandate.mk "BALANCED" 2 (some 30) 1 30 (some ["pharma"]) 1 2))
      "Pharma").can_add = false ∧
    RiskChecker.check_sector_exposure (some 1)
        (some (Mandate.mk "BALANCED" 2 (some 30) 1 30 (some ["pharma"]) 1 2))
        (some ⟨some 100000, some 0⟩) none [] (some "Pharma") 1000 =
      RiskChecker.check_sector_exposure (some 1)
        (some { Mandate.mk "BALANCED" 2 (some 30) 1 30 (some ["pharma"]) 1 2
          with banned_sectors := none })
        (some ⟨some 100000, some 0⟩) none [] (some "Pharma") 1000 :=
  banned_sector_blocked_only_in_allocator
    (Mandate.mk "BALANCED" 2 (some 30) 1 30 (some ["pharma"]) 1 2) "Pharma"
    (some 1) (some ⟨some 100000, some 0⟩) none [] (some "Pharma") 1000
    (by decide)

/-- C6: Liquidity boundary and fail-open.  With a positive average volume
over the lookback, the check passes exactly when `quantity / avg_volume ≤ 5%`
(a ratio of exactly 5% passes) and fails with a CRITICAL warning when the
ratio is strictly greater than 5%; with no volume history it passes and
appends a WARNING-severity warning. -/
theorem liquidity_boundary_and_fail_open (q : ℤ) (v : ℚ) (hv : 0 < v) :
    ((RiskChecker.check_liquidity (some v) q).1 = true ↔
      (q : ℚ) / v ≤ 5/100) ∧
    ((q : ℚ) / v > 5/100 →
      RiskChecker.check_liquidity (some v) q =
        (false, [⟨.CRITICAL, "LIQUIDITY_BELOW_THRESHOLD"⟩])) ∧
    RiskChecker.check_liquidity none q =
      (true, [⟨.WARNING, "INSUFFICIENT_VOLUME_DATA"⟩]) := by
  have hv0 : v ≠ 0 := ne_of_gt hv
  refine ⟨?_, ?_, rfl⟩
  · unfold RiskChecker.check_liquidity
    simp only [hv0, if_false]
    by_cases h : (q : ℚ) / v > 5/100 <;> simp [h] <;> linarith
  · intro h
    unfold RiskChecker.check_liquidity
    simp [hv0, h]

/-- Witness for C6: with average volume 100, a quantity of 5 (exactly 5%)
passes, a quantity of 6 fails CRITICAL, and a missing average volume passes
with a WARNING. -/
theorem liquidity_boundary_and_fail_open_witness :
    (RiskChecker.check_liquidity (some 100) 5).1 = true ∧
    RiskChecker.check_liquidity (some 100) 6 =
      (false, [⟨.CRITICAL, "LIQUIDITY_BELOW_THRESHOLD"⟩]) ∧
    RiskChecker.check_liquidity none 5 =
      (true, [⟨.WARNING, "INSUFFICIENT_VOLUME_DATA"⟩]) :=
  ⟨(liquidity_boundary_and_fail_open 5 100 (by norm_num)).1.mpr (by norm_num),
    (liquidity_boundary_and_fail_open 6 100 (by norm_num)).2.1 (by norm_num),
    (liquidity_boundary_and_fail_open 5 100 (by norm_num)).2.2⟩

/-! ### Allocator: signal ranking (allocator.py) -/

/-- A candidate `Signal` row, with the fields consumed by the allocator.
`edge`, `confidence` and `quality_score` are nullable columns. -/
structure Signal where
  id : ℤ
  symbol : String
  exchange : String
  direction : String
  edge : Option ℚ
  confidence : Option ℚ
  quality_score : Option ℚ
  horizon_days : ℤ
  regime_compatible : Option Bool
deriving Repr, DecidableEq

/-- MAX_PROFIT ranking key: `(s.edge or 0) * (s.quality_score or 0.5)`. -/
def scoreMaxProfit (s : Signal) : ℚ := orQ s.edge 0 * orQ s.quality_score (1/2)

/-- RISK_MINIMIZED ranking key as written in the source:
`(s.quality_score or 0)`. -/
def scoreRiskMinimized (s : Signal) : ℚ := orQ s.quality_score 0

/-- BALANCED ranking key:
`(s.edge or 0) * (s.quality_score or 0.5) * (s.confidence or 0.5)`. -/
def scoreBalanced (s : Signal) : ℚ :=
  orQ s.edge 0 * orQ s.quality_score (1/2) * orQ s.confidence (1/2)

/-- Stable insertion into a list sorted descending by `key`: the new element
goes in front of the first element whose key is less than or equal to its
own, so earlier elements win ties — the behaviour of Python's stable
`sorted(..., reverse=True)`. -/
def insertDescBy {α : Type} (key : α → ℚ) (a : α) : List α → List α
  | [] => [a]
  | b :: l => if key b ≤ key a then a :: b :: l else b :: insertDescBy key a l

/-- Stable descending sort by `key`, modelling Python
`sorted(xs, key=key, reverse=True)`. -/
def sortDescBy {α : Type} (key : α → ℚ) : List α → List α
  | [] => []
  | a :: l => insertDescBy key a (sortDescBy key l)

theorem insertDescBy_perm {α : Type} (key : α → ℚ) (a : α) (l : List α) :
    (insertDescBy key a l).Perm (a :: l) := by
  induction l with
  | nil => exact List.Perm.refl _
  | cons b l ih =>
    simp only [insertDescBy]
    split
    · exact List.Perm.refl _
    · exact (ih.cons b).trans (List.Perm.swap a b l)

theorem sortDescBy_perm {α : Type} (key : α → ℚ) (l : List α) :
    (sortDescBy key l).Perm l := by
  induction l with
  | nil => exact List.Perm.refl _
  | cons a l ih =>
    exact (insertDescBy_perm key a (sortDescBy key l)).trans (ih.cons a)

theorem insertDescBy_sorted {α : Type} (key : α → ℚ) (a : α) (l : List α)
    (h : l.Sorted (fun x y => key y ≤ key x)) :
    (insertDescBy key a l).Sorted (fun x y => key y ≤ key x) := by
  induction l with
  | nil => simp [insertDescBy]
  | cons b l ih =>
    rw [List.sorted_cons] at h
    simp only [insertDescBy]
    split
    · rename_i hba
      rw [List.sorted_cons]
      refine ⟨?_, by rw [List.sorted_cons]; exact h⟩
      intro x hx
      rcases List.mem_cons.mp hx with hxb | hxl
      · exact hxb ▸ hba
      · exact le_trans (h.1 x hxl) hba
    · rename_i hba
      rw [List.sorted_cons]
      refine ⟨?_, ih h.2⟩
      intro x hx
      rcases List.mem_cons.mp ((insertDescBy_perm key a l).mem_iff.mp hx) with
        hxa | hxl
      · exact hxa ▸ le_of_lt (lt_of_not_le hba)
      · exact h.1 x hxl

theorem sortDescBy_sorted {α : Type} (key : α → ℚ) (l : List α) :
    (sortDescBy key l).Sorted (fun x y => key y ≤ key x) := by
  induction l with
  | nil => simp [sortDescBy]
  | cons a l ih => exact insertDescBy_sorted key a (sortDescBy key l) ih

/-- `Allocator._rank_by_objective` (allocator.py:123-152): stable descending
sort of the signals by the objective-specific key — `edge×quality` for
MAX_PROFIT, bare `quality_score or 0` for RISK_MINIMIZED, and
`edge×quality×confidence` for BALANCED (the `else` branch). -/
def Allocator.rank_by_objective (objective : String) (signals : List Signal) :
    List Signal :=
  if objective = "MAX_PROFIT" then sortDescBy scoreMaxProfit signals
  else if objective = "RISK_MINIMIZED" then sortDescBy scoreRiskMinimized signals
  else sortDescBy scoreBalanced signals

/-- Modelled from the spec's words, for comparison with the code in C7:
RISK_MINIMIZED ranks strictly descending by `quality_score`, where a signal
whose `quality_score` is missing is scored with the neutral default 0.5. -/
def rankRiskMinimizedSpec (signals : List Signal) : List Signal :=
  sortDescBy (fun s => s.quality_score.getD (1/2)) signals

/-- Signal with no quality score, used in the C7 counterexample. -/
def sigNoQuality : Signal :=
  ⟨1, "AAA", "NSE", "LONG", some 6, some (1/2), none, 10, some true⟩

/-- Signal with quality score 0.3, used in the C7 counterexample. -/
def sigLowQuality : Signal :=
  ⟨2, "BBB", "NSE", "LONG", some 4, some (1/2), some (3/10), 10, some true⟩

/-- C7 counterexample: under RISK_MINIMIZED the code scores a missing
`quality_score` as 0 (`s.quality_score or 0`), not the 0.5 neutral default
the claim states.  On the list [no-quality, quality 0.3] the code ranks the
0.3-quality signal first (0.3 > 0), while the claimed ranking (missing scored
0.5) would rank the no-quality signal first (0.5 > 0.3). -/
theorem risk_minimized_default_refuted :
    Allocator.rank_by_objective "RISK_MINIMIZED" [sigNoQuality, sigLowQuality] ≠
      rankRiskMinimizedSpec [sigNoQuality, sigLowQuality] := by
  have hne : ("RISK_MINIMIZED" : String) ≠ "MAX_PROFIT" := by decide
  have hcode :
      Allocator.rank_by_objective "RISK_MINIMIZED"
        [sigNoQuality, sigLowQuality] = [sigLowQuality, sigNoQuality] := by
    norm_num [Allocator.rank_by_objective, hne, sortDescBy, insertDescBy,
      scoreRiskMinimized, orQ, sigNoQuality, sigLowQuality]
  have hspec :
      rankRiskMinimizedSpec [sigNoQuality, sigLowQuality] =
        [sigNoQuality, sigLowQuality] := by
    norm_num [rankRiskMinimizedSpec, sortDescBy, insertDescBy,
      sigNoQuality, sigLowQuality]
  rw [hcode, hspec]
  simp [sigNoQuality, sigLowQuality]

/-- C7 amended: for every signal list, the RISK_MINIMIZED branch of
`Allocator._rank_by_objective` returns a permutation of the input sorted in
descending order of `quality_score or 0` — a missing (or Python-falsy 0)
`quality_score` is scored 0 under this objective, not the 0.5 neutral
default the other objectives use. -/
theorem rank_risk_minimized_sorted_desc (signals : List Signal) (s : Signal)
    (hs : s.quality_score = none) :
    (Allocator.rank_by_objective "RISK_MINIMIZED" signals).Perm signals ∧
    (Allocator.rank_by_objective "RISK_MINIMIZED" signals).Sorted
      (fun a b => scoreRiskMinimized b ≤ scoreRiskMinimized a) ∧
    scoreRiskMinimized s = 0 := by
  have hne : ("RISK_MINIMIZED" : String) ≠ "MAX_PROFIT" := by decide
  have hobj : Allocator.rank_by_objective "RISK_MINIMIZED" signals =
      sortDescBy scoreRiskMinimized signals := by
    simp [Allocator.rank_by_objective, hne]
  refine ⟨?_, ?_, ?_⟩
  · rw [hobj]; exact sortDescBy_perm _ _
  · rw [hobj]; exact sortDescBy_sorted _ _
  · simp [scoreRiskMinimized, orQ, hs]

/-- Witness for the amended C7 at a concrete list and no-quality signal. -/
theorem rank_risk_minimized_sorted_desc_witness :
    (Allocator.rank_by_objective "RISK_MINIMIZED"
      [sigNoQuality, sigLowQuality]).Perm [sigNoQuality, sigLowQuality] ∧
    (Allocator.rank_by_objective "RISK_MINIMIZED"
      [sigNoQuality, sigLowQuality]).Sorted
      (fun a b => scoreRiskMinimized b ≤ scoreRiskMinimized a) ∧
    scoreRiskMinimized sigNoQuality = 0 :=
  rank_risk_minimized_sorted_desc [sigNoQuality, sigLowQuality] sigNoQuality
    (by simp [sigNoQuality])

/-! ### Allocator: position sizing and per-account allocation -/

/-- The sized trade opportunity dict built by `Allocator._size_position`
(thesis text is elided). -/
structure SizedOpportunity where
  signal_id : ℤ
  symbol : String
  exchange : String
  direction : String
  entry_price : ℚ
  quantity : ℤ
  position_size_rupees : ℚ
  stop_loss : ℚ
  take_profit : ℚ
  risk_amount : ℚ
  reward_amount : ℚ
  risk_reward_ratio : ℚ
deriving Repr, DecidableEq

/-- `Allocator._size_position` (allocator.py:154-256): with no latest candle,
skip; otherwise take `atr = atr_14d or entry*2%`, derive directional
stop/target from the mandate multipliers, compute
`quantity = int(total_capital * risk% / risk_per_share)`, skip if below 1,
cap the position value at 10% of total capital and then at available cash
(recomputing `quantity = int(cap/entry)` each time), skip if the final
quantity is below 1, and return the sized opportunity. -/
def Allocator.size_position (signal : Signal) (m : Mandate)
    (latest_close : Option ℚ) (atr_14d : Option ℚ)
    (total_capital available_cash : ℚ) : Option SizedOpportunity :=
  match latest_close with
  | none => none
  | some entry_price =>
    let atr := orQ atr_14d (entry_price * (2/100))
    let stop_loss :=
      if signal.direction = "LONG" then entry_price - atr * m.sl_multiplier
      else entry_price + atr * m.sl_multiplier
    let take_profit :=
      if signal.direction = "LONG" then entry_price + atr * m.tp_multiplier
      else entry_price - atr * m.tp_multiplier
    let risk_per_share := |entry_price - stop_loss|
    if risk_per_share ≤ 0 then none
    else
      let max_risk_amount := total_capital * (m.risk_per_trade_percent / 100)
      let quantity := pyInt (max_risk_amount / risk_per_share)
      if quantity < 1 then none
      else
        let position_size := entry_price * (quantity : ℚ)
        let max_position_size := total_capital * (10/100)
        let qp :=
          if position_size > max_position_size then
            let q := pyInt (max_position_size / entry_price)
            (q, entry_price * (q : ℚ))
          else (quantity, position_size)
        let qp2 :=
          if qp.2 > available_cash then
            let q := pyInt (available_cash / entry_price)
            (q, entry_price * (q : ℚ))
          else qp
        if qp2.1 < 1 then none
        else
          let risk_amount := risk_per_share * (qp2.1 : ℚ)
          let reward_amount := |take_profit - entry_price| * (qp2.1 : ℚ)
          let rr := if risk_amount > 0 then reward_amount / risk_amount else 0
          some ⟨signal.id, signal.symbol, signal.exchange, signal.direction,
            entry_price, qp2.1, qp2.2, stop_loss, take_profit, risk_amount,
            reward_amount, rr⟩

theorem pyInt_lt_one (x : ℚ) : pyInt x < 1 ↔ x < 1 := by
  unfold pyInt
  split
  · rw [Int.floor_lt]
    norm_num
  · rename_i h
    push_neg at h
    constructor
    · intro _
      linarith
    · intro _
      have hc : (⌈x⌉ : ℤ) ≤ 0 := by
        rw [Int.ceil_le]
        push_cast
        linarith
      linarith

/-- The long signal of the C9 sizing scenario. -/
def sigScenario : Signal :=
  ⟨7, "SCEN", "NSE", "LONG", some 5, some (7/10), some (8/10), 10, some true⟩

/-- The mandate of the C9 sizing scenario: risk 2% per trade, SL multiplier 1
(so that ATR 50 gives stop distance 50), TP multiplier 2. -/
def mandateScenario : Mandate :=
  ⟨"MAX_PROFIT", 2, some 30, 1, 30, none, 1, 2⟩

/-- C9: Sizing cap cascade.  In the scenario entry=1000, stop distance 50
(ATR 50 × SL multiplier 1), risk 2% of total_capital 100000: the risk-based
quantity is 40; its position value 40000 exceeds the 10%-of-capital cap
10000, so the quantity is recomputed to `int(10000/1000) = 10`; with
`available_cash = 5000` it is further recomputed to `int(5000/1000) = 5`;
and for every `available_cash` the opportunity is skipped (result `none`)
exactly when the final quantity would be below 1, i.e. when
`available_cash < 1000` here. -/
theorem sizing_cap_cascade (avail : ℚ) :
    pyInt (100000 * ((2 : ℚ) / 100) / 50) = 40 ∧
    (1000 : ℚ) * 40 > 100000 * (10/100) ∧
    (∃ o : SizedOpportunity,
      Allocator.size_position sigScenario mandateScenario (some 1000)
          (some 50) 100000 100000 = some o ∧
        o.quantity = 10 ∧ o.position_size_rupees = 10000) ∧
    (∃ o : SizedOpportunity,
      Allocator.size_position sigScenario mandateScenario (some 1000)
          (some 50) 100000 5000 = some o ∧ o.quantity = 5) ∧
    ((Allocator.size_position sigScenario mandateScenario (some 1000)
        (some 50) 100000 avail).isNone ↔ avail < 1000) := by
  refine ⟨by norm_num [pyInt], by norm_num, ?_, ?_, ?_⟩
  · refine ⟨⟨7, "SCEN", "NSE", "LONG", 1000, 10, 10000, 950, 1100, 500,
      1000, 2⟩, ?_, rfl, rfl⟩
    norm_num [Allocator.size_position, sigScenario, mandateScenario, orQ,
      pyInt]
  · refine ⟨⟨7, "SCEN", "NSE", "LONG", 1000, 5, 5000, 950, 1100, 250,
      500, 2⟩, ?_, rfl⟩
    norm_num [Allocator.size_position, sigScenario, mandateScenario, orQ,
      pyInt]
  · by_cases hcash : (10000 : ℚ) > avail
    · have hdiv : pyInt (avail / 1000) < 1 ↔ avail < 1000 := by
        rw [pyInt_lt_one, div_lt_one (by norm_num : (0:ℚ) < 1000)]
      by_cases hlow : avail < 1000
      · have hq : pyInt (avail / 1000) < 1 := hdiv.mpr hlow
        simp only [pyInt] at hq
        simp only [Allocator.size_position, sigScenario, mandateScenario, orQ]
        norm_num [pyInt, hcash, hlow]
        intro h
        exact absurd hq (not_lt.mpr h)
      · have hq : ¬ pyInt (avail / 1000) < 1 := fun h => hlow (hdiv.mp h)
        rw [not_lt] at hq
        simp only [pyInt] at hq
        simp only [Allocator.size_position, sigScenario, mandateScenario, orQ]
        norm_num [pyInt, hcash, hlow]
        exact ⟨hq, by simp⟩
    · simp only [Allocator.size_position, sigScenario, mandateScenario, orQ]
      norm_num [pyInt, hcash]
      linarith [not_lt.mp hcash]

/-- Truthy quality-score cutoff of `_filter_by_mandate`
(`if signal.quality_score and signal.quality_score < 0.5: continue`): a
signal is dropped only when its quality score is present, non-zero (truthy)
and below 0.5. -/
def qualityBelowCutoff (qs : Option ℚ) : Bool :=
  match qs with
  | some q => decide (q ≠ 0) && decide (q < 1/2)
  | none => false

/-- One signal's pass condition in `Allocator._filter_by_mandate`
(allocator.py:92-121): horizon within the mandate window, quality cutoff,
and `regime_compatible is False` exclusion (the strategy whitelist branch
accepts everything). -/
def signalPassesMandate (m : Mandate) (s : Signal) : Bool :=
  !(decide (s.horizon_days < m.horizon_min_days) ||
      decide (s.horizon_days > m.horizon_max_days)) &&
  !(qualityBelowCutoff s.quality_score) &&
  !(s.regime_compatible == some false)

/-- `Allocator._filter_by_mandate`: keep the signals passing the mandate
rules, in order. -/
def Allocator.filter_by_mandate (signals : List Signal) (m : Mandate) :
    List Signal :=
  signals.filter (signalPassesMandate m)

/-- The database rows consulted by `Allocator.allocate_for_account` for one
account: the `Account` row (existence only), the active `Mandate`, the
`FundingPlan`, and the per-symbol latest-close / ATR lookups used by
`_size_position`. -/
structure AccountDb where
  account : Option Unit
  mandate : Option Mandate
  funding_plan : Option FundingPlanState
  latest_close : String → String → Option ℚ
  atr_14d : String → Option ℚ

/-- `Allocator.allocate_for_account` (allocator.py:25-90): raise `ValueError`
(modelled as `Except.error`) when the account row does not exist; return `[]`
when there is no active mandate, no funding plan, or
`available_cash <= 0`; otherwise filter by mandate (empty filter result
returns `[]`, indistinguishable from the later `.ok` of the loop), rank by
objective, and size the top `max_cards` signals, keeping the successfully
sized ones. -/
def Allocator.allocate_for_account (account_id : ℤ) (db : AccountDb)
    (candidate_signals : List Signal) (max_cards : ℕ) :
    Except String (List SizedOpportunity) :=
  match db.account with
  | none => .error ("Account " ++ toString account_id ++ " not found")
  | some _ =>
    match db.mandate with
    | none => .ok []
    | some mandate =>
      match db.funding_plan with
      | none => .ok []
      | some fp =>
        if fp.available_cash ≤ 0 then .ok []
        else
          let filtered := Allocator.filter_by_mandate candidate_signals mandate
          if filtered.isEmpty then .ok []
          else
            let ranked := Allocator.rank_by_objective mandate.objective filtered
            let total_capital := fp.available_cash + fp.total_deployed
            .ok ((ranked.take max_cards).filterMap fun s =>
              Allocator.size_position s mandate
                (db.latest_close s.symbol s.exchange) (db.atr_14d s.symbol)
                total_capital fp.available_cash)

/-- C10 (implicit): `allocate_for_account` raises a `ValueError` (an
exception, modelled as `Except.error`) when the account row does not exist,
while the no-active-mandate, no-funding-plan and `available_cash <= 0` cases
return an empty list without raising — so a caller iterating accounts must
handle an exception only for unknown accounts. -/
theorem allocate_for_account_error_paths (account_id : ℤ) (db : AccountDb)
    (signals : List Signal) (max_cards : ℕ) (m : Mandate)
    (fp : FundingPlanState) :
    (db.account = none →
      Allocator.allocate_for_account account_id db signals max_cards =
        .error ("Account " ++ toString account_id ++ " not found")) ∧
    (db.account = some () → db.mandate = none →
      Allocator.allocate_for_account account_id db signals max_cards =
        .ok []) ∧
    (db.account = some () → db.mandate = some m → db.funding_plan = none →
      Allocator.allocate_for_account account_id db signals max_cards =
        .ok []) ∧
    (db.account = some () → db.mandate = some m → db.funding_plan = some fp →
      fp.available_cash ≤ 0 →
      Allocator.allocate_for_account account_id db signals max_cards =
        .ok []) := by
  refine ⟨?_, ?_, ?_, ?_⟩
  · intro ha
    simp [Allocator.allocate_for_account, ha]
  · intro ha hm
    simp [Allocator.allocate_for_account, ha, hm]
  · intro ha hm hf
    simp [Allocator.allocate_for_account, ha, hm, hf]
  · intro ha hm hf hc
    simp [Allocator.allocate_for_account, ha, hm, hf, hc]

/-- Witness for C10 at concrete databases: a missing account errors; a
missing mandate, a missing funding plan, and a non-positive available cash
each return the empty list. -/
theorem allocate_for_account_error_paths_witness :
    (Allocator.allocate_for_account 42
        ⟨none, none, none, fun _ _ => none, fun _ => none⟩ [] 5 =
      .error ("Account " ++ toString (42 : ℤ) ++ " not found")) ∧
    (Allocator.allocate_for_account 42
        ⟨some (), none, none, fun _ _ => none, fun _ => none⟩ [] 5 =
      .ok []) ∧
    (Allocator.allocate_for_account 42
        ⟨some (), some mandateScenario, none, fun _ _ => none,
          fun _ => none⟩ [] 5 = .ok []) ∧
    (Allocator.allocate_for_account 42
        ⟨some (), some mandateScenario, some ⟨0, 0, 0⟩, fun _ _ => none,
          fun _ => none⟩ [] 5 = .ok []) :=
  ⟨(allocate_for_account_error_paths 42
      ⟨none, none, none, fun _ _ => none, fun _ => none⟩ [] 5
      mandateScenario ⟨0, 0, 0⟩).1 rfl,
    (allocate_for_account_error_paths 42
      ⟨some (), none, none, fun _ _ => none, fun _ => none⟩ [] 5
      mandateScenario ⟨0, 0, 0⟩).2.1 rfl rfl,
    (allocate_for_account_error_paths 42
      ⟨some (), some mandateScenario, none, fun _ _ => none,
        fun _ => none⟩ [] 5 mandateScenario ⟨0, 0, 0⟩).2.2.1 rfl rfl rfl,
    (allocate_for_account_error_paths 42
      ⟨some (), some mandateScenario, some ⟨0, 0, 0⟩, fun _ _ => none,
        fun _ => none⟩ [] 5 mandateScenario ⟨0, 0, 0⟩).2.2.2 rfl rfl rfl
      le_rfl⟩

/-! ### Kill switches (`RiskMonitor`, risk_monitor.py) -/

/-- One `KillSwitch` row, with the fields read and written by
`RiskMonitor.check_kill_switches` and `reset_kill_switch`.  `triggered_at`
is a timestamp, modelled as a rational time coordinate. -/
structure KillSwitchState where
  is_active : Bool
  is_triggered : Bool
  switch_type : String
  threshold_value : ℚ
  triggered_at : Option ℚ
  triggered_value : Option ℚ
  auto_reset_minutes : ℚ
deriving Repr, DecidableEq

/-- The risk-snapshot fields read by `check_kill_switches`. -/
structure RiskSnapshotView where
  daily_realized_pnl : ℚ
  total_unrealized_pnl : ℚ
  daily_max_drawdown : ℚ
deriving Repr, DecidableEq

/-- The per-switch breach evaluation of `check_kill_switches`
(risk_monitor.py:193-222): for MAX_DAILY_LOSS, trigger iff today's combined
P&L is negative, total capital is positive and the loss percentage is at
least the threshold (the triggered value is that percentage); for
MAX_DRAWDOWN, the analogous test on `daily_max_drawdown`; other types never
trigger. -/
def shouldTriggerValue (sw : KillSwitchState) (snapshot : RiskSnapshotView)
    (total_capital : ℚ) : Option ℚ :=
  if sw.switch_type = "MAX_DAILY_LOSS" then
    let pnl := snapshot.daily_realized_pnl + snapshot.total_unrealized_pnl
    if pnl < 0 then
      let loss_amount := |pnl|
      if 0 < total_capital then
        let loss_percent := loss_amount / total_capital * 100
        if loss_percent ≥ sw.threshold_value then some loss_percent else none
      else none
    else none
  else if sw.switch_type = "MAX_DRAWDOWN" then
    if snapshot.daily_max_drawdown < 0 then
      if 0 < total_capital then
        let drawdown_percent :=
          |snapshot.daily_max_drawdown| / total_capital * 100
        if drawdown_percent ≥ sw.threshold_value then some drawdown_percent
        else none
      else none
    else none
  else none

/-- The effect of one `RiskMonitor.check_kill_switches` pass on one switch
(risk_monitor.py:165-247): the query selects only switches with
`is_active == True` and `is_triggered == False` — an already-triggered
switch is never re-evaluated, regardless of elapsed time — and a selected
switch that breaches its threshold gets `is_triggered := true`,
`triggered_at := now`, `triggered_value := metric`. -/
def RiskMonitor.check_kill_switch (now : ℚ) (snapshot : RiskSnapshotView)
    (total_capital : ℚ) (sw : KillSwitchState) : KillSwitchState :=
  if sw.is_active && !sw.is_triggered then
    match shouldTriggerValue sw snapshot total_capital with
    | some v =>
      { sw with
        is_triggered := true
        triggered_at := some now
        triggered_value := some v }
    | none => sw
  else sw

/-- `RiskMonitor.reset_kill_switch` (risk_monitor.py:267-280): manual reset
clears `is_triggered`, `triggered_at` and `triggered_value`. -/
def RiskMonitor.reset_kill_switch (sw : KillSwitchState) : KillSwitchState :=
  { sw with
    is_triggered := false
    triggered_at := none
    triggered_value := none }

/-- C8: Kill-switch state machine.  (1) A repeat check while a switch is
already triggered leaves it entirely unchanged — it is not re-triggered and
`triggered_at`/`triggered_value` are not overwritten, however much time has
elapsed.  (2) A check sets `is_triggered` on a non-triggered switch exactly
when the switch is active and its monitored metric breaches the threshold.
(3) On such a breach, the check performs precisely the
INACTIVE→TRIGGERED transition, stamping `triggered_at := now` and
`triggered_value := metric`, and is the identity otherwise.  (4) Manual
reset performs the TRIGGERED→INACTIVE transition, clearing
`triggered_at`/`triggered_value`.  Together these show every transition the
code performs lies in the claim's transition set (the code clears a
triggered switch only through the manual-reset path, one of the two clearing
transitions the claim permits). -/
theorem kill_switch_state_machine (now : ℚ) (snapshot : RiskSnapshotView)
    (total_capital : ℚ) (sw : KillSwitchState) :
    (sw.is_triggered = true →
      RiskMonitor.check_kill_switch now snapshot total_capital sw = sw) ∧
    (sw.is_triggered = false →
      ((RiskMonitor.check_kill_switch now snapshot total_capital
          sw).is_triggered = true ↔
        sw.is_active = true ∧
          (shouldTriggerValue sw snapshot total_capital).isSome = true)) ∧
    (sw.is_triggered = false → sw.is_active = true →
      RiskMonitor.check_kill_switch now snapshot total_capital sw =
        match shouldTriggerValue sw snapshot total_capital with
        | some v =>
          { sw with
            is_triggered := true
            triggered_at := some now
            triggered_value := some v }
        | none => sw) ∧
    ((RiskMonitor.reset_kill_switch sw).is_triggered = false ∧
      (RiskMonitor.reset_kill_switch sw).triggered_at = none ∧
      (RiskMonitor.reset_kill_switch sw).triggered_value = none) := by
  refine ⟨?_, ?_, ?_, rfl, rfl, rfl⟩
  · intro ht
    simp [RiskMonitor.check_kill_switch, ht]
  · intro ht
    cases ha : sw.is_active with
    | false => simp [RiskMonitor.check_kill_switch, ht, ha]
    | true =>
      cases hs : shouldTriggerValue sw snapshot total_capital with
      | none => simp [RiskMonitor.check_kill_switch, ht, ha, hs]
      | some v => simp [RiskMonitor.check_kill_switch, ht, ha, hs]
  · intro ht ha
    simp [RiskMonitor.check_kill_switch, ht, ha]

/-- Already-triggered MAX_DAILY_LOSS switch used in the C8 witness. -/
def swTriggered : KillSwitchState :=
  ⟨true, true, "MAX_DAILY_LOSS", 5, some 10, some 6, 60⟩

/-- Armed (active, untriggered) MAX_DAILY_LOSS switch used in the C8
witness. -/
def swArmed : KillSwitchState :=
  ⟨true, false, "MAX_DAILY_LOSS", 5, none, none, 60⟩

/-- Witness for C8 on the spec's scenario (capital 100000, combined daily
P&L −6000, threshold 5%): a later check leaves the already-triggered switch
untouched; the armed switch triggers exactly per the breach evaluation; and
manual reset clears the triggered switch. -/
theorem kill_switch_state_machine_witness :
    (RiskMonitor.check_kill_switch 120 ⟨-6000, 0, 0⟩ 100000 swTriggered =
      swTriggered) ∧
    ((RiskMonitor.check_kill_switch 120 ⟨-6000, 0, 0⟩ 100000
        swArmed).is_triggered = true ↔
      swArmed.is_active = true ∧
        (shouldTriggerValue swArmed ⟨-6000, 0, 0⟩ 100000).isSome = true) ∧
    (RiskMonitor.check_kill_switch 120 ⟨-6000, 0, 0⟩ 100000 swArmed =
      match shouldTriggerValue swArmed ⟨-6000, 0, 0⟩ 100000 with
      | some v =>
        { swArmed with
          is_triggered := true
          triggered_at := some 120
          triggered_value := some v }
      | none => swArmed) ∧
    ((RiskMonitor.reset_kill_switch swTriggered).is_triggered = false ∧
      (RiskMonitor.reset_kill_switch swTriggered).triggered_at = none ∧
      (RiskMonitor.reset_kill_switch swTriggered).triggered_value = none) :=
  ⟨(kill_switch_state_machine 120 ⟨-6000, 0, 0⟩ 100000 swTriggered).1 rfl,
    (kill_switch_state_machine 120 ⟨-6000, 0, 0⟩ 100000 swArmed).2.1 rfl,
    (kill_switch_state_machine 120 ⟨-6000, 0, 0⟩ 100000 swArmed).2.2.1 rfl
      rfl,
    (kill_switch_state_machine 120 ⟨-6000, 0, 0⟩ 100000 swTriggered).2.2.2⟩

end AITrading
